import Mathlib

/-!
Formal model of `clientx/clientx.go` (package `clientx` of jursonmo/zinx):
a wrapper around a Zinx network client that adds auto-reconnection, an
atomically readable connected flag, two capacity-1 signal channels and two
synchronous connect facades.

Modelling conventions:
* `time.Duration` is `Nat` (nanoseconds); `time.Second = 1000000000`.
* a capacity-1 Go channel is its occupancy count (`Nat`); the code's
  non-blocking `select { case ch <- v: default: }` send and
  `select { case <-ch: default: }` drain become `trySend1` / `tryRecv1`.
* goroutine interleaving is modelled by explicit event lists: the supervisor
  loop consumes `LoopEvent`s, the whole system (hooks of the transport's
  dispatch goroutine plus a synchronous waiter's receive) consumes `SysEv`s.
* a Go `panic` (nil dereference) and a blocked receive are modelled by
  `Option`-valued steps returning `none`.
-/

namespace Clientx

/-- The opaque `ziface.IConnection` handle; only the two addresses the
supervisor loop logs are relevant. -/
structure Connection where
  localAddr : String
  remoteAddr : String
deriving DecidableEq, Repr

/-- The two possible results of `context.Context.Err()` once a context is
done: `context.Canceled` or `context.DeadlineExceeded`. -/
inductive CtxErr
  | canceled
  | deadlineExceeded
deriving DecidableEq, Repr

/-- A Go `error` value as it appears in this package: either a context error
or an `errors.New`-style message (dial errors from `GetErrChan()` and the
`errors.New("connect timeout")` value are of this second form). -/
inductive GoError
  | ctxErr (e : CtxErr)
  | errorString (msg : String)
deriving DecidableEq, Repr

/-- Whether an error is an `errorString` value, the form dial errors read
from the transport's error channel have. -/
def GoError.isDialStyle : GoError → Bool
  | .errorString _ => true
  | .ctxErr _ => false

/-- Which parent context a `StartWithContext` call derived its scope from:
the caller-supplied one (`Connect`) or `context.Background()`
(`ConnectWithTimeout`). -/
inductive ScopeSrc
  | caller
  | background
deriving DecidableEq, Repr

/-- The `Client` struct of `clientx.go`:
`connected` is the `atomic.Value` flag, `disconnectCh`/`connectOkCh` are the
occupancies of the two `make(chan struct{}, 1)` channels, `reconnectIntvl`
the reconnect interval in nanoseconds, `conn` the transport's current
connection (`c.Conn()`, nil ↦ `none`).  `parentScope`, `cancelFn` and
`ctxErr` model `c.ctx, c.cancel = context.WithCancel(ctx)`: which parent the
scope came from, whether `c.cancel` is non-nil, and `c.ctx.Err()`.
`transportStarted` records that `c.IClient.Start()` ran, and `loopTasks`
counts supervisor-loop goroutines spawned by `go func() { for { select ... } } ()`. -/
structure Client where
  connected : Bool
  disconnectCh : Nat
  connectOkCh : Nat
  reconnectIntvl : Nat
  conn : Option Connection
  parentScope : Option ScopeSrc
  cancelFn : Bool
  ctxErr : Option CtxErr
  transportStarted : Bool
  loopTasks : Nat
deriving DecidableEq, Repr

/-- `NewClient`: both channels empty (capacity 1), `connected` stored
`false`, `reconnectIntvl` = `time.Second`, no context yet, no loop spawned. -/
def NewClient : Client :=
  { connected := false
    disconnectCh := 0
    connectOkCh := 0
    reconnectIntvl := 1000000000
    conn := none
    parentScope := none
    cancelFn := false
    ctxErr := none
    transportStarted := false
    loopTasks := 0 }

/-- Non-blocking send on a capacity-1 channel
(`select { case ch <- struct\x7b\x7d{}: default: }`): delivers if the slot is
free, otherwise drops the signal.  The producer never waits. -/
def trySend1 (ch : Nat) : Nat :=
  if ch < 1 then ch + 1 else ch

/-- Non-blocking receive on a capacity-1 channel
(`select { case <-ch: default: }`): drains one pending signal if present,
otherwise a no-op. -/
def tryRecv1 (ch : Nat) : Nat :=
  if 0 < ch then ch - 1 else ch

/-- `Client.onConnStart`: store `connected = true`, then non-blocking send
on `connectOkCh`. -/
def onConnStart (c : Client) : Client :=
  { c with connected := true, connectOkCh := trySend1 c.connectOkCh }

/-- `Client.onConnStop`: store `connected = false`, then non-blocking send
on `disconnectCh`. -/
def onConnStop (c : Client) : Client :=
  { c with connected := false, disconnectCh := trySend1 c.disconnectCh }

/-- `Client.clearConnectOkCh`: non-blocking drain of `connectOkCh`. -/
def clearConnectOkCh (c : Client) : Client :=
  { c with connectOkCh := tryRecv1 c.connectOkCh }

/-- `Client.IsConnected`: read the atomic flag. -/
def IsConnected (c : Client) : Bool :=
  c.connected

/-- The callbacks currently registered on the inner `znet` client
(`IClient.SetOnConnStart` / `IClient.SetOnConnStop` overwrite these slots).
A caller handler receives the connection handle and may read or mutate the
`Client` state (e.g. call `IsConnected` or drain a channel). -/
structure Registry where
  startCb : Connection → Client → Client
  stopCb : Connection → Client → Client

/-- The registry as set up by `NewClient`: the internal hooks themselves. -/
def initRegistry : Registry :=
  { startCb := fun _ c => onConnStart c
    stopCb := fun _ c => onConnStop c }

/-- `Client.SetOnConnStart`: wraps the caller handler so the internal
`onConnStart` hook runs first, then registers the wrapper on the inner
client (replacing whatever was registered before). -/
def SetOnConnStart (r : Registry) (handler : Connection → Client → Client) : Registry :=
  { r with startCb := fun conn c => handler conn (onConnStart c) }

/-- `Client.SetOnConnStop`: wraps the caller handler so the internal
`onConnStop` hook runs first, then registers the wrapper on the inner
client (replacing whatever was registered before). -/
def SetOnConnStop (r : Registry) (handler : Connection → Client → Client) : Registry :=
  { r with stopCb := fun conn c => handler conn (onConnStop c) }

/-- `Client.Stop`: `if c.cancel != nil { c.cancel() }` — cancelling the
scope makes `c.ctx.Err()` return `context.Canceled`. -/
def Stop (c : Client) : Client :=
  if c.cancelFn then { c with ctxErr := some .canceled } else c

/-- `Client.StartWithContext` up to (and including) spawning the supervisor
goroutine: derive a fresh scope from the given parent
(`c.ctx, c.cancel = context.WithCancel(ctx)`), call `c.IClient.Start()`,
and spawn one more supervisor-loop goroutine.  The Go code performs these
steps unconditionally on every call — there is no already-started guard. -/
def StartWithContext (c : Client) (src : ScopeSrc) : Client :=
  { c with
    parentScope := some src
    cancelFn := true
    ctxErr := none
    transportStarted := true
    loopTasks := c.loopTasks + 1 }

/-- The three events the supervisor loop's `select` can wake on:
`c.ctx.Done()` closed, a signal on `c.disconnectCh`, or a dial error from
`c.GetErrChan()`. -/
inductive LoopEvent
  | ctxDone
  | disconnectSig
  | dialErr (e : GoError)
deriving DecidableEq, Repr

/-- Observable effects the supervisor loop performs, in program order. -/
inductive Action
  | transportStop
  | logDisconnect (localAddr remoteAddr : String)
  | drainConnectOk
  | sleep (d : Nat)
  | transportRestart
  | logDialErr (e : GoError)
deriving DecidableEq, Repr

/-- One iteration of the supervisor loop's `select`, given the event that
fired.  Returns the updated client, the ordered list of effects, and whether
the branch executed `return` (terminating the goroutine); `none` models a
nil-dereference panic.
* `ctxDone`: `if c.Conn() != nil { c.IClient.Stop() }; return`.
* `disconnectSig`: the receive consumes the pending signal; the log line
  evaluates `c.Conn().LocalAddr()` / `c.Conn().RemoteAddr()` with no nil
  guard, so a nil connection panics; then `c.clearConnectOkCh()`,
  `time.Sleep(c.reconnectIntvl)`, `c.IClient.Restart()`.
* `dialErr`: log, `time.Sleep(c.reconnectIntvl)`, `c.IClient.Restart()`. -/
def supervisorStep (c : Client) : LoopEvent → Option (Client × List Action × Bool)
  | .ctxDone =>
      if c.conn.isSome then
        some (c, [.transportStop], true)
      else
        some (c, [], true)
  | .disconnectSig =>
      match c.conn with
      | none => none
      | some conn =>
          some (clearConnectOkCh { c with disconnectCh := c.disconnectCh - 1 },
                [.logDisconnect conn.localAddr conn.remoteAddr, .drainConnectOk,
                 .sleep c.reconnectIntvl, .transportRestart],
                false)
  | .dialErr e =>
      some (c, [.logDialErr e, .sleep c.reconnectIntvl, .transportRestart], false)

/-- The supervisor loop run over a finite list of fired events, the direct
translation of `for { select { ... } }`: a branch ending in `return`
terminates the goroutine, so remaining events are never processed; an empty
list means the loop is still blocked at its `select`. -/
def runLoop (c : Client) : List LoopEvent → Option (Client × List Action)
  | [] => some (c, [])
  | e :: es =>
      match supervisorStep c e with
      | none => none
      | some (c1, acts, true) => some (c1, acts)
      | some (c1, acts, false) =>
          match runLoop c1 es with
          | none => none
          | some (c2, acts2) => some (c2, acts ++ acts2)

/-- Which case of `Connect`'s `select` fires first: the derived scope's
`Done` channel (carrying `c.ctx.Err()`) or a signal on `connectOkCh`. -/
inductive ConnectEv
  | ctxDone (e : CtxErr)
  | okSignal
deriving DecidableEq, Repr

/-- `Client.Connect(ctx)`: `StartWithContext` under the caller's scope,
then block until the scope is done (return `c.ctx.Err()`) or a
connect-success signal arrives (consume it, return nil). -/
def Connect (c : Client) (ev : ConnectEv) : Client × Option GoError :=
  let c1 := StartWithContext c .caller
  match ev with
  | .ctxDone e => ({ c1 with ctxErr := some e }, some (.ctxErr e))
  | .okSignal => ({ c1 with connectOkCh := c1.connectOkCh - 1 }, none)

/-- Which case of `ConnectWithTimeout`'s `select` fires first: the timer
or a signal on `connectOkCh`. -/
inductive TimeoutEv
  | timerFired
  | okSignal
deriving DecidableEq, Repr

/-- `Client.ConnectWithTimeout(timeout)`: `StartWithContext` under
`context.Background()` (a fresh scope the caller never supplied), then block
until the timer fires (call `c.Stop()`, return
`errors.New("connect timeout")`) or a connect-success signal arrives
(consume it, return nil). -/
def ConnectWithTimeout (c : Client) (timeout : Nat) (ev : TimeoutEv) :
    Client × Option GoError :=
  let c1 := StartWithContext c .background
  match ev with
  | .timerFired => (Stop c1, some (.errorString "connect timeout"))
  | .okSignal => ({ c1 with connectOkCh := c1.connectOkCh - 1 }, none)

/-- System-level events for the interaction between the transport's
callback goroutine (which runs the hooks) and a synchronous waiter blocked
on `connectOkCh`: a connection-established callback, a connection-lost
callback, or the waiter's receive from `connectOkCh`. -/
inductive SysEv
  | connStart
  | connStop
  | recvOk
deriving DecidableEq, Repr

/-- Whether a system event is one of the two lifecycle hooks. -/
def SysEv.isHook : SysEv → Bool
  | .connStart => true
  | .connStop => true
  | .recvOk => false

/-- One system step: hooks always run; the waiter's receive is enabled only
when a success signal is pending (a blocked receive is `none`). -/
def sysStep (c : Client) : SysEv → Option Client
  | .connStart => some (onConnStart c)
  | .connStop => some (onConnStop c)
  | .recvOk =>
      if 0 < c.connectOkCh then
        some { c with connectOkCh := c.connectOkCh - 1 }
      else
        none

/-- Run a list of system events in order. -/
def sysRun (c : Client) : List SysEv → Option Client
  | [] => some c
  | e :: es =>
      match sysStep c e with
      | none => none
      | some c1 => sysRun c1 es

/-- The last lifecycle hook occurring in an event list, if any. -/
def lastHook : List SysEv → Option SysEv
  | [] => none
  | e :: es =>
      match lastHook es with
      | some x => some x
      | none => if e.isHook then some e else none

/-! ## Helper lemmas about the channel primitives -/

/-- A non-blocking send never pushes a capacity-1 channel past occupancy 1. -/
theorem trySend1_le_one (ch : Nat) (h : ch ≤ 1) : trySend1 ch ≤ 1 := by
  unfold trySend1
  split <;> omega

/-- A non-blocking drain empties a channel whose occupancy respects the
capacity bound. -/
theorem tryRecv1_eq_zero (ch : Nat) (h : ch ≤ 1) : tryRecv1 ch = 0 := by
  unfold tryRecv1
  split <;> omega

/-! ## Theorems -/

/-- C1, counterexample: `StartWithContext` spawns a supervisor-loop
goroutine unconditionally.  After a first start the loop is active (one
task, scope not cancelled); a second start under the same caller scope
spawns a second task, so "does not spawn a second supervisor task" is false
on the code. -/
theorem C1_counterexample :
    (StartWithContext NewClient .caller).loopTasks = 1 ∧
    (StartWithContext NewClient .caller).ctxErr = none ∧
    (StartWithContext (StartWithContext NewClient .caller) .caller).loopTasks = 2 := by
  refine ⟨rfl, rfl, rfl⟩

/-- C1, amended: every invocation of the asynchronous start operation —
directly via `StartWithContext` or implicitly via `Connect` — spawns exactly
one additional supervisor-loop task, with no guard against one already being
active; avoiding a double start is a caller obligation. -/
theorem C1_start_always_spawns (c : Client) (src : ScopeSrc) (ev : ConnectEv) :
    (StartWithContext c src).loopTasks = c.loopTasks + 1 ∧
    (Connect c ev).1.loopTasks = c.loopTasks + 1 := by
  refine ⟨rfl, ?_⟩
  cases ev <;> rfl

/-- C2: once the supervisor loop observes cancellation at its `select`
point, it stops the transport exactly when a connection object exists and
the goroutine returns: whatever events are still pending afterwards are
never processed, and no restart of the transport occurs. -/
theorem C2_cancellation_terminal (c : Client) (evs : List LoopEvent) :
    runLoop c (.ctxDone :: evs) =
      some (c, if c.conn.isSome then [Action.transportStop] else []) := by
  cases hc : c.conn <;> simp [runLoop, supervisorStep, hc]

/-- C9: the disconnect branch of the supervisor loop dereferences
`c.Conn()` for its log line without a nil guard, so it completes without a
nil-dereference fault exactly when the current connection is non-nil;
the cancellation branch, by contrast, checks the connection for nil and
stops the transport only when it exists, never faulting. -/
theorem C9_disconnect_branch_nil_guard (c : Client) :
    ((supervisorStep c .disconnectSig).isSome = c.conn.isSome) ∧
    (supervisorStep c .ctxDone =
      some (c, (if c.conn.isSome then [Action.transportStop] else []), true)) := by
  cases hc : c.conn <;> simp [supervisorStep, hc]

/-- C10: on a dial error the supervisor loop logs, sleeps for
`reconnectIntvl` and restarts the transport, leaving `connectOkCh`
untouched (no drain action in this branch); a success signal pending at
that moment (occupancy 1) survives the restart and a later waiter's
receive from `connectOkCh` is enabled on the resulting state. -/
theorem C10_dial_error_keeps_ok_signal (c : Client) (e : GoError) :
    (supervisorStep c (.dialErr e) =
      some (c, [.logDialErr e, .sleep c.reconnectIntvl, .transportRestart], false)) ∧
    ((supervisorStep c (.dialErr e)).map (fun r => r.1.connectOkCh) =
      some c.connectOkCh) ∧
    (c.connectOkCh = 1 →
      (supervisorStep c (.dialErr e)).map (fun r => (sysStep r.1 .recvOk).isSome) =
        some true) := by
  refine ⟨rfl, rfl, fun h => ?_⟩
  simp [supervisorStep, sysStep, h]

/-- C10, witness at a concrete client holding a pending success signal. -/
theorem C10_witness :
    (supervisorStep { NewClient with connectOkCh := 1 }
        (.dialErr (.errorString "dial tcp: connection refused"))).map
      (fun r => (sysStep r.1 .recvOk).isSome) = some true :=
  (C10_dial_error_keeps_ok_signal { NewClient with connectOkCh := 1 }
    (.errorString "dial tcp: connection refused")).2.2 rfl

/-- C3: `ConnectWithTimeout` starts the manager under a scope derived from
`context.Background()` — not from any caller-supplied scope.  When the timer
fires it stops the manager (the internally owned scope ends up cancelled)
and returns `errors.New("connect timeout")`, whose message is the literal
"connect " followed by "timeout" and is therefore matchable as a timeout
kind; when the connect-success signal arrives first it returns nil. -/
theorem C3_connect_with_timeout (c : Client) (d : Nat) :
    ((ConnectWithTimeout c d .timerFired).2 =
      some (.errorString ("connect " ++ "timeout"))) ∧
    ((ConnectWithTimeout c d .timerFired).1.parentScope = some .background) ∧
    ((ConnectWithTimeout c d .timerFired).1.ctxErr = some .canceled) ∧
    ((ConnectWithTimeout c d .okSignal).2 = none) ∧
    ((ConnectWithTimeout c d .okSignal).1.parentScope = some .background) := by
  refine ⟨rfl, rfl, ?_, rfl, rfl⟩
  simp [ConnectWithTimeout, Stop, StartWithContext]

/-- C4: `Connect` starts the manager under the caller's scope; when that
scope is done it returns exactly the scope's error (`c.ctx.Err()`), when a
connect-success signal arrives first it returns nil, and its return value
is never a dial-style error: dial errors and disconnects are consumed only
inside the supervisor loop. -/
theorem C4_connect_returns_scope_error (c : Client) (e : CtxErr) (ev : ConnectEv) :
    ((Connect c (.ctxDone e)).2 = some (.ctxErr e)) ∧
    ((Connect c .okSignal).2 = none) ∧
    ((Connect c ev).1.parentScope = some .caller) ∧
    (((Connect c ev).2.elim True (fun g => g.isDialStyle = false))) := by
  refine ⟨rfl, rfl, ?_, ?_⟩ <;> cases ev <;> simp [Connect, StartWithContext, GoError.isDialStyle]

/-- C5: on a disconnect signal (connection present, channel occupancy at
most its capacity 1) the supervisor loop performs, in this order: report
the disconnection, drain any pending connect-success signal, sleep for
`reconnectIntvl`, restart the transport — and afterwards `connectOkCh` is
empty, also when the drain was a no-op, so no stale success signal from a
previous attempt survives the restart for a later waiter. -/
theorem C5_disconnect_drains_stale_ok (c : Client) (conn : Connection)
    (hconn : c.conn = some conn) (hcap : c.connectOkCh ≤ 1) :
    ((supervisorStep c .disconnectSig).map (fun r => r.2.1) =
      some [.logDisconnect conn.localAddr conn.remoteAddr, .drainConnectOk,
            .sleep c.reconnectIntvl, .transportRestart]) ∧
    ((supervisorStep c .disconnectSig).map (fun r => r.1.connectOkCh) = some 0) ∧
    ((supervisorStep c .disconnectSig).map (fun r => r.2.2) = some false) := by
  refine ⟨by simp [supervisorStep, hconn], ?_, by simp [supervisorStep, hconn]⟩
  simp [supervisorStep, hconn, clearConnectOkCh]
  exact tryRecv1_eq_zero _ hcap

/-- C5, witness: a concrete connected client with a stale pending success
signal; the disconnect branch leaves the channel empty. -/
theorem C5_witness :
    (supervisorStep
        { NewClient with conn := some ⟨"127.0.0.1:5000", "127.0.0.1:9000"⟩, connectOkCh := 1 }
        .disconnectSig).map (fun r => r.1.connectOkCh) = some 0 :=
  (C5_disconnect_drains_stale_ok
    { NewClient with conn := some ⟨"127.0.0.1:5000", "127.0.0.1:9000"⟩, connectOkCh := 1 }
    ⟨"127.0.0.1:5000", "127.0.0.1:9000"⟩ rfl (by decide)).2.1

/-- C7: `onConnStart` sets `connected` to true and performs a non-blocking
coalescing send on `connectOkCh` (delivered when empty, dropped when one is
already pending, occupancy never exceeds 1), leaving `disconnectCh` alone;
`onConnStop` sets `connected` to false and does the same on
`disconnectCh`.  Both hooks are total functions of the state: the producer
never waits. -/
theorem C7_hooks_nonblocking_coalescing (c : Client) :
    ((onConnStart c).connected = true) ∧
    ((onConnStart c).disconnectCh = c.disconnectCh) ∧
    (c.connectOkCh = 0 → (onConnStart c).connectOkCh = 1) ∧
    (c.connectOkCh = 1 → (onConnStart c).connectOkCh = 1) ∧
    (c.connectOkCh ≤ 1 → (onConnStart c).connectOkCh ≤ 1) ∧
    ((onConnStop c).connected = false) ∧
    ((onConnStop c).connectOkCh = c.connectOkCh) ∧
    (c.disconnectCh = 0 → (onConnStop c).disconnectCh = 1) ∧
    (c.disconnectCh = 1 → (onConnStop c).disconnectCh = 1) ∧
    (c.disconnectCh ≤ 1 → (onConnStop c).disconnectCh ≤ 1) := by
  refine ⟨rfl, rfl, fun h => ?_, fun h => ?_, fun h => ?_, rfl, rfl,
          fun h => ?_, fun h => ?_, fun h => ?_⟩
  · show trySend1 c.connectOkCh = 1
    rw [h]
    decide
  · show trySend1 c.connectOkCh = 1
    rw [h]
    decide
  · exact trySend1_le_one _ h
  · show trySend1 c.disconnectCh = 1
    rw [h]
    decide
  · show trySend1 c.disconnectCh = 1
    rw [h]
    decide
  · exact trySend1_le_one _ h

/-- C7, witness: both hooks at the freshly constructed client and at a
client where a signal is already pending. -/
theorem C7_witness :
    ((onConnStart NewClient).connectOkCh = 1) ∧
    ((onConnStart (onConnStart NewClient)).connectOkCh = 1) ∧
    ((onConnStop NewClient).disconnectCh = 1) ∧
    ((onConnStop (onConnStop NewClient)).disconnectCh = 1) := by
  have h1 := C7_hooks_nonblocking_coalescing NewClient
  have h2 := C7_hooks_nonblocking_coalescing (onConnStart NewClient)
  have h3 := C7_hooks_nonblocking_coalescing (onConnStop NewClient)
  exact ⟨h1.2.2.1 rfl, h2.2.2.2.1 rfl, h1.2.2.2.2.2.2.2.1 rfl,
         h3.2.2.2.2.2.2.2.2.1 rfl⟩

/-- C8: a handler registered through the manager's `SetOnConnStart` or
`SetOnConnStop` always runs after the manager's internal bookkeeping hook —
the state the caller handler receives already has `connected` updated —
and re-registration replaces the previous caller handler while still
running the internal hook first. -/
theorem C8_handler_composition (r : Registry)
    (h h₂ : Connection → Client → Client) (conn : Connection) (c : Client) :
    ((SetOnConnStart r h).startCb conn c = h conn (onConnStart c)) ∧
    ((SetOnConnStart (SetOnConnStart r h) h₂).startCb conn c =
      h₂ conn (onConnStart c)) ∧
    (IsConnected (onConnStart c) = true) ∧
    ((SetOnConnStop r h).stopCb conn c = h conn (onConnStop c)) ∧
    ((SetOnConnStop (SetOnConnStop r h) h₂).stopCb conn c =
      h₂ conn (onConnStop c)) ∧
    (IsConnected (onConnStop c) = false) := by
  exact ⟨rfl, rfl, rfl, rfl, rfl, rfl⟩

/-- Running a concatenation of event lists runs the two parts in sequence. -/
theorem sysRun_append (l₁ l₂ : List SysEv) :
    ∀ c, sysRun c (l₁ ++ l₂) = (sysRun c l₁).bind (fun c₁ => sysRun c₁ l₂) := by
  induction l₁ with
  | nil => intro c; rfl
  | cons e es ih =>
      intro c
      simp only [List.cons_append, sysRun]
      cases sysStep c e with
      | none => rfl
      | some c₁ => simpa using ih c₁

/-- `lastHook` only ever returns lifecycle hooks. -/
theorem lastHook_isHook (tr : List SysEv) :
    ∀ x, lastHook tr = some x → x.isHook = true := by
  induction tr with
  | nil => intro x h; cases h
  | cons e es ih =>
      intro x h
      simp only [lastHook] at h
      cases hl : lastHook es with
      | some y =>
          rw [hl] at h
          cases h
          exact ih _ hl
      | none =>
          rw [hl] at h
          by_cases he : e.isHook = true
          · rw [if_pos he] at h
            cases h
            exact he
          · rw [if_neg he] at h
            cases h

/-- After any successful run of system events, `connected` is determined by
the last lifecycle hook: true after connection-established, false after
connection-lost, and unchanged when no hook occurred (the waiter's receive
never touches the flag). -/
theorem sysRun_connected_lastHook (tr : List SysEv) :
    ∀ c c₂, sysRun c tr = some c₂ →
      c₂.connected = (match lastHook tr with
                      | some .connStart => true
                      | some .connStop => false
                      | _ => c.connected) := by
  induction tr with
  | nil =>
      intro c c₂ h
      cases h
      rfl
  | cons e es ih =>
      intro c c₂ h
      cases e with
      | connStart =>
          have h₂ := ih (onConnStart c) c₂ h
          rw [h₂]
          simp only [lastHook, SysEv.isHook]
          cases hl : lastHook es with
          | none => simp [onConnStart]
          | some x =>
              cases x with
              | connStart => simp
              | connStop => simp
              | recvOk => exact absurd (lastHook_isHook es _ hl) (by decide)
      | connStop =>
          have h₂ := ih (onConnStop c) c₂ h
          rw [h₂]
          simp only [lastHook, SysEv.isHook]
          cases hl : lastHook es with
          | none => simp [onConnStop]
          | some x =>
              cases x with
              | connStart => simp
              | connStop => simp
              | recvOk => exact absurd (lastHook_isHook es _ hl) (by decide)
      | recvOk =>
          by_cases hch : 0 < c.connectOkCh
          · have h₂ : sysRun { c with connectOkCh := c.connectOkCh - 1 } es = some c₂ := by
              simpa [sysRun, sysStep, hch] using h
            have h₃ := ih _ _ h₂
            rw [h₃]
            simp only [lastHook, SysEv.isHook]
            cases hl : lastHook es with
            | none => simp
            | some x =>
                cases x with
                | connStart => simp
                | connStop => simp
                | recvOk => exact absurd (lastHook_isHook es _ hl) (by decide)
          · exfalso
            simp [sysRun, sysStep, hch] at h

/-- C6, counterexample: the transport's callback goroutine runs
connection-established and then connection-lost before the synchronous
waiter's receive from `connectOkCh` runs.  The success signal is still
pending, so the receive succeeds — `Connect` (and `ConnectWithTimeout`)
return nil on the `okSignal` case — yet `IsConnected` is already false
immediately after the return: the claim is false as stated. -/
theorem C6_counterexample :
    ((sysRun NewClient [.connStart, .connStop, .recvOk]).map IsConnected =
      some false) ∧
    ((Connect NewClient .okSignal).2 = none) ∧
    ((ConnectWithTimeout NewClient 1000000000 .okSignal).2 = none) := by
  exact ⟨rfl, rfl, rfl⟩

/-- C6, amended: when the waiter's receive from `connectOkCh` succeeds (the
nil-error return of `Connect` / `ConnectWithTimeout`) and no connection-lost
callback has run since the connection-established callback — i.e. the last
lifecycle hook before the receive is connection-established — then
`IsConnected` is true immediately after the return.  The flag is stored
true before the signal send (both inside `onConnStart`), so the hook never
leaves the signal pending with the flag still false. -/
theorem C6_success_reflects_state (tr : List SysEv) (c₂ : Client)
    (hlast : lastHook tr = some .connStart)
    (hrun : sysRun NewClient (tr ++ [.recvOk]) = some c₂) :
    IsConnected c₂ = true := by
  rw [sysRun_append] at hrun
  cases hr : sysRun NewClient tr with
  | none =>
      rw [hr] at hrun
      cases hrun
  | some c₁ =>
      rw [hr] at hrun
      have hc₁ : c₁.connected = true := by
        have h := sysRun_connected_lastHook tr NewClient c₁ hr
        rw [hlast] at h
        exact h
      by_cases hch : 0 < c₁.connectOkCh
      · simp [sysRun, sysStep, hch] at hrun
        rw [IsConnected, ← hrun]
        exact hc₁
      · simp [sysRun, sysStep, hch] at hrun

/-- C6, amended, witness: a single established connection, then the waiter
receives; the flag reads true afterwards. -/
theorem C6_success_witness :
    IsConnected { NewClient with connected := true } = true :=
  C6_success_reflects_state [.connStart] { NewClient with connected := true }
    rfl rfl

end Clientx
